import Mathlib

/-!
Verification development for the sUSDe term-structure monitor.

The embedding models the three core pieces of the system:

* the snapshot cron job (`api/snapshot.js`): chain fan-out, market filtering,
  expiry filtering, front/back selection and the daily `SpreadRecord`;
* the dashboard pipeline (`src/App.js`): `fetchPendleMarkets` filtering and
  `processMarkets`, including the field-resolution fallbacks;
* the history read endpoint (`api/history.js`): day-count clamping and the
  reversal of the store's newest-first retrieval order;
* the snapshot store's upsert-on-date semantics (executed by the external
  storage service and therefore modelled from the spec).

JavaScript numbers are modelled as rationals, timestamps as integers
(milliseconds since the epoch), and JS `a || b` fallbacks via explicit
truthiness functions (`0`, `""` and absent values are falsy).
-/

/-! ## JS-style string primitives -/

/-- Lower-case a character, as `String.prototype.toLowerCase` does for ASCII. -/
def charLower (c : Char) : Char :=
  if c.toNat ≥ 65 ∧ c.toNat ≤ 90 then Char.ofNat (c.toNat + 32) else c

/-- The character data of a string, lower-cased. -/
def lowerChars (s : String) : List Char := s.data.map charLower

/-- Whether `pat` is a prefix of the second list (JS `startsWith` on chars). -/
def isPrefixL : List Char → List Char → Bool
  | [], _ => true
  | _ :: _, [] => false
  | a :: pat, b :: s => a == b && isPrefixL pat s

/-- Whether `pat` occurs as a contiguous substring (JS `String.prototype.includes`). -/
def containsL (pat : List Char) : List Char → Bool
  | [] => pat.isEmpty
  | c :: rest => isPrefixL pat (c :: rest) || containsL pat rest

/-- JS `x || d` for an optional numeric field: an absent or zero (falsy)
value falls through to the default. -/
def orVal : Option ℚ → ℚ → ℚ
  | some q, d => if q = 0 then d else q
  | none, d => d

/-- JS `x || d` for an optional string field: an absent or empty (falsy)
value falls through to the default. -/
def strOr : Option String → String → String
  | some s, d => if s = "" then d else s
  | none, d => d

/-! ## Time arithmetic -/

/-- Milliseconds per day, the divisor in both days-to-expiry computations. -/
def msPerDay : Int := 86400000

/-- `Math.ceil((expiry - now) / msPerDay)`: days to expiry, computed with
exact integer ceiling division. -/
def daysToExpiry (expiry now : Int) : Int :=
  (expiry - now + (msPerDay - 1)) / msPerDay

/-- The calendar day of a UTC millisecond timestamp; models taking the
date part of an ISO string (`.toISOString().split('T')[0]`). -/
def msToDay (t : Int) : Int := t / msPerDay

/-! ## Rounding -/

/-- Round a rational to the nearest integer, half away from zero. -/
def roundHalfAway (q : ℚ) : Int :=
  if q < 0 then -(Int.floor (-q + 1/2)) else Int.floor (q + 1/2)

/-- `parseFloat(q.toFixed(k))`: round to `k` decimal places,
half away from zero. -/
def roundTo (k : Nat) (q : ℚ) : ℚ :=
  ((roundHalfAway (q * 10 ^ k) : ℚ)) / 10 ^ k

/-! ## Market records -/

/-- A raw market record from the upstream API, with every field the code
reads kept optional to model the heterogeneous upstream shapes. -/
structure Market where
  name : Option String := none
  proName : Option String := none
  underlyingSymbol : Option String := none
  expiry : Option Int := none
  detailsImpliedApy : Option ℚ := none
  impliedApy : Option ℚ := none
  detailsUnderlyingApy : Option ℚ := none
  underlyingApy : Option ℚ := none
  detailsAggregatedApy : Option ℚ := none
  detailsLiquidity : Option ℚ := none
  liquidityUsd : Option ℚ := none
deriving DecidableEq, Inhabited

/-- The expiry timestamp used for sorting (`new Date(m.expiry)`); only
applied to records that passed the expiry-presence filter. -/
def expiryMs (m : Market) : Int := m.expiry.getD 0

/-- `m.details?.impliedApy || m.impliedApy || 0`. -/
def resolveImpliedApy (m : Market) : ℚ :=
  orVal m.detailsImpliedApy (orVal m.impliedApy 0)

/-- `m.details?.underlyingApy || m.underlyingApy || 0` (snapshot job). -/
def resolveUnderlyingApySnap (m : Market) : ℚ :=
  orVal m.detailsUnderlyingApy (orVal m.underlyingApy 0)

/-- `m.details?.underlyingApy || m.underlyingApy || m.details?.aggregatedApy || 0`
(dashboard). -/
def resolveUnderlyingApyApp (m : Market) : ℚ :=
  orVal m.detailsUnderlyingApy (orVal m.underlyingApy (orVal m.detailsAggregatedApy 0))

/-- `m.details?.liquidity || m.liquidity?.usd || 0` (dashboard). -/
def resolveTvlApp (m : Market) : ℚ :=
  orVal m.detailsLiquidity (orVal m.liquidityUsd 0)

/-- Sorting relation used by both pipelines: ascending expiry timestamp. -/
def expiryLe (a b : Market) : Prop := expiryMs a ≤ expiryMs b

instance : DecidableRel expiryLe :=
  fun a b => inferInstanceAs (Decidable (expiryMs a ≤ expiryMs b))

instance : IsTotal Market expiryLe := ⟨fun a b => le_total (expiryMs a) (expiryMs b)⟩

instance : IsTrans Market expiryLe := ⟨fun _ _ _ h1 h2 => le_trans h1 h2⟩

/-! ## Snapshot cron job (`api/snapshot.js`) -/

/-- The snapshot job's market filter: `(market.name || '').toLowerCase() === 'susde'`. -/
def snapMatch (m : Market) : Bool :=
  lowerChars (m.name.getD "") == "susde".data

/-- The matched sUSDe markets of the snapshot job. -/
def snapCandidates (ms : List Market) : List Market := ms.filter snapMatch

/-- `susdeMarkets.filter(m => m.expiry).sort(byExpiry).filter(daysToExpiry > 0)`:
drop records without an expiry, sort ascending by expiry (stable, as JS
`Array.prototype.sort`), then drop already-expired records. -/
def snapValidSorted (ms : List Market) (now : Int) : List Market :=
  (List.insertionSort expiryLe ((snapCandidates ms).filter (fun m => m.expiry.isSome))).filter
    (fun m => decide (0 < daysToExpiry (expiryMs m) now))

/-- The persisted daily record (`record` in the handler). -/
structure SpreadRecord where
  date : Int
  term_spread : ℚ
  front_month_apy : ℚ
  back_month_apy : ℚ
  front_expiry : Int
  back_expiry : Int
  underlying_apy : ℚ
  markets_count : Nat
deriving DecidableEq, Inhabited

/-- The front (earliest-expiry) element of the valid sorted list. -/
def snapFront (ms : List Market) (now : Int) : Market :=
  ((snapValidSorted ms now).head?).getD default

/-- The back (latest-expiry) element of the valid sorted list. -/
def snapBack (ms : List Market) (now : Int) : Market :=
  ((snapValidSorted ms now).getLast?).getD default

/-- Build the daily record from the valid sorted list, as in the handler:
yields are the resolved fractional rates scaled by 100 and stored with
4-decimal rounding; expiries are stored as ISO days. -/
def mkRecord (sorted : List Market) (now : Int) : SpreadRecord :=
  let front := (sorted.head?).getD default
  let back := (sorted.getLast?).getD default
  let frontApy := resolveImpliedApy front * 100
  let backApy := resolveImpliedApy back * 100
  { date := msToDay now,
    term_spread := roundTo 4 (backApy - frontApy),
    front_month_apy := roundTo 4 frontApy,
    back_month_apy := roundTo 4 backApy,
    front_expiry := msToDay (expiryMs front),
    back_expiry := msToDay (expiryMs back),
    underlying_apy := roundTo 4 (resolveUnderlyingApySnap front * 100),
    markets_count := sorted.length }

/-- Outcome of one snapshot-job run: the two informational early returns
(both HTTP 200, nothing persisted) or a successful computation. -/
inductive SnapOutcome where
  | insufficientMarkets (found : Nat)
  | notEnoughValid (valid : Nat)
  | success (r : SpreadRecord)
deriving DecidableEq

/-- The snapshot handler on already-fetched markets: filter to sUSDe,
bail out below 2 matches, filter/sort by expiry, bail out below 2 valid
markets, otherwise compute the record. -/
def snapshotOutcome (ms : List Market) (now : Int) : SnapOutcome :=
  if (snapCandidates ms).length < 2 then
    SnapOutcome.insufficientMarkets (snapCandidates ms).length
  else if (snapValidSorted ms now).length < 2 then
    SnapOutcome.notEnoughValid (snapValidSorted ms now).length
  else
    SnapOutcome.success (mkRecord (snapValidSorted ms now) now)

/-- The record the run persists, if any: only a successful computation
reaches the upsert call. -/
def persistedSnapshot : SnapOutcome → Option SpreadRecord
  | SnapOutcome.success r => some r
  | _ => none

/-- HTTP status of the run: all three outcomes respond 200. -/
def snapStatus : SnapOutcome → Nat
  | SnapOutcome.insufficientMarkets _ => 200
  | SnapOutcome.notEnoughValid _ => 200
  | SnapOutcome.success _ => 200

/-- Whether the run computed and persisted a record. -/
def isSuccess : SnapOutcome → Bool
  | SnapOutcome.success _ => true
  | _ => false

/-! ## Chain fan-out (`Promise.all` with per-branch `.catch`) -/

/-- Result of one per-chain fetch branch. -/
inductive FetchResult where
  | ok (markets : List Market)
  | err (msg : String)
deriving DecidableEq

/-- Markets a branch contributes: a failed branch was mapped by its
`.catch` handler to `{ markets: [] }`. -/
def branchMarkets : FetchResult → List Market
  | FetchResult.ok l => l
  | FetchResult.err _ => []

/-- Whether a branch succeeded. -/
def branchOk : FetchResult → Bool
  | FetchResult.ok _ => true
  | FetchResult.err _ => false

/-- `responses.flatMap(r => r.markets)`: the combined market list. -/
def combinedMarkets (rs : List FetchResult) : List Market :=
  (rs.map branchMarkets).flatten

/-! ## Dashboard pipeline (`src/App.js`) -/

/-- The dashboard's resolved display name: `market.name || market.proName || ''`. -/
def appDisplayName (m : Market) : String := strOr m.name (strOr m.proName "")

/-- The dashboard's underlying-asset symbol: `market.underlyingAsset?.symbol || ''`. -/
def appSymbol (m : Market) : String := strOr m.underlyingSymbol ""

/-- The dashboard filter: `name.includes('susde') || symbol.includes('susde')`
on the lower-cased name and symbol. -/
def appMatch (m : Market) : Bool :=
  containsL "susde".data (lowerChars (appDisplayName m)) ||
    containsL "susde".data (lowerChars (appSymbol m))

/-- One term-structure point (only the numeric fields the logic reads). -/
structure TSPoint where
  days : Int
  impliedYield : ℚ
  underlyingYield : ℚ
  tvl : ℚ
deriving DecidableEq, Inhabited

/-- Map one market to its term-structure point, as `processMarkets` does. -/
def toPoint (now : Int) (m : Market) : TSPoint :=
  { days := daysToExpiry (expiryMs m) now,
    impliedYield := resolveImpliedApy m * 100,
    underlyingYield := resolveUnderlyingApyApp m * 100,
    tvl := resolveTvlApp m }

/-- `markets.filter(m => m.expiry).sort(byExpiry)` in `processMarkets`. -/
def appSorted (ms : List Market) : List Market :=
  List.insertionSort expiryLe (ms.filter (fun m => m.expiry.isSome))

/-- The mapped term-structure list (`structure` in `processMarkets`). -/
def appStructurePoints (ms : List Market) (now : Int) : List TSPoint :=
  (appSorted ms).map (toPoint now)

/-- `structure.filter(s => s.days > 0 && s.impliedYield > 0)`. -/
def appValidStructure (ms : List Market) (now : Int) : List TSPoint :=
  (appStructurePoints ms now).filter
    (fun s => decide (0 < s.days) && decide (0 < s.impliedYield))

/-- Front point of the valid structure. -/
def appFront (ms : List Market) (now : Int) : TSPoint :=
  ((appValidStructure ms now).head?).getD default

/-- Back point of the valid structure. -/
def appBack (ms : List Market) (now : Int) : TSPoint :=
  ((appValidStructure ms now).getLast?).getD default

/-- `processMarkets`: `none` models the two early returns (empty sorted
list, or no valid points); otherwise the displayed structure and the term
spread it sets — back minus front at 2 decimals for two or more points,
`0` for exactly one. -/
def appProcess (ms : List Market) (now : Int) : Option (List TSPoint × ℚ) :=
  if (appSorted ms).isEmpty then none
  else if (appValidStructure ms now).isEmpty then none
  else some (appValidStructure ms now,
    if 2 ≤ (appValidStructure ms now).length then
      roundTo 2 ((appBack ms now).impliedYield - (appFront ms now).impliedYield)
    else 0)

/-! ## History read endpoint (`api/history.js`) -/

/-- Descending-date relation: the store's native `order=date.desc`. -/
def dateGe (a b : SpreadRecord) : Prop := b.date ≤ a.date

instance : DecidableRel dateGe :=
  fun a b => inferInstanceAs (Decidable (b.date ≤ a.date))

instance : IsTotal SpreadRecord dateGe := ⟨fun a b => le_total b.date a.date⟩

instance : IsTrans SpreadRecord dateGe := ⟨fun _ _ _ h1 h2 => le_trans h2 h1⟩

/-- Ascending-date relation: the order the endpoint promises. -/
def dateLe (a b : SpreadRecord) : Prop := a.date ≤ b.date

/-- `parseInt(req.query.days) || 90`: an absent, unparseable or zero
parameter falls back to 90. -/
def effDays : Option Int → Int
  | none => 90
  | some d => if d = 0 then 90 else d

/-- `Math.min(days, 365)`. -/
def limitedDays (q : Option Int) : Int := min (effDays q) 365

/-- The storage fetch: newest-first order, at most `limitedDays` rows. -/
def fetchDesc (store : List SpreadRecord) (q : Option Int) : List SpreadRecord :=
  ((List.insertionSort dateGe store).take (limitedDays q).toNat)

/-- `data.reverse()`: the endpoint's chronological response payload. -/
def historyData (store : List SpreadRecord) (q : Option Int) : List SpreadRecord :=
  (fetchDesc store q).reverse

/-! ## Snapshot store upsert -/

/-- Modelled from the spec: the store's upsert-on-date conflict resolution
is executed by the external storage service (the handler only sends the
row with a merge-duplicates preference header), so it is not code under
`src/`. Per the spec, `put` persists keyed by `date`: if a record for that
date already exists, its fields are fully replaced by the new snapshot. -/
def storePut (store : List SpreadRecord) (r : SpreadRecord) : List SpreadRecord :=
  r :: store.filter (fun s => !(s.date == r.date))

/-- Retrieve the record stored for a date, if any. -/
def getByDate (store : List SpreadRecord) (d : Int) : Option SpreadRecord :=
  (store.filter (fun s => s.date == d)).head?

/-! ## Concrete scenario inputs -/

/-- The claimed scenario's front candidate: expiry `T+10d`, implied APY `0.04`. -/
def mC1a : Market :=
  { name := some "sUSDe", expiry := some 864000000, impliedApy := some (4/100) }

/-- The claimed scenario's back candidate: expiry `T+180d`, implied APY `0.01`. -/
def mC1b : Market :=
  { name := some "sUSDe", expiry := some 15552000000, impliedApy := some (1/100) }

/-- A stored snapshot row used to exercise the history endpoint. -/
def rHist : SpreadRecord :=
  { date := 0, term_spread := -3, front_month_apy := 4, back_month_apy := 1,
    front_expiry := 10, back_expiry := 180, underlying_apy := 0, markets_count := 2 }

/-- A market whose name contains the asset symbol without being equal to it. -/
def mC3 : Market := { name := some "sUSDe Something" }

/-- A single matching, unexpired market with a positive implied yield. -/
def mG : Market :=
  { name := some "sUSDe", expiry := some 864000000, impliedApy := some (5/100) }

/-- A market whose preferred (nested) implied-yield source is present but zero. -/
def mC6 : Market := { detailsImpliedApy := some 0, impliedApy := some (5/100) }

/-- Nested implied yield present but zero, top-level nonzero. -/
def mC10 : Market := { detailsImpliedApy := some 0, impliedApy := some (7/100) }

/-- Both underlying-yield sources present but zero, alias nonzero. -/
def mC10b : Market :=
  { detailsUnderlyingApy := some 0, underlyingApy := some 0,
    detailsAggregatedApy := some (3/100) }

/-- A snapshot row for the upsert scenario. -/
def rS : SpreadRecord :=
  { date := 7, term_spread := -2, front_month_apy := 5, back_month_apy := 3,
    front_expiry := 20, back_expiry := 100, underlying_apy := 6, markets_count := 2 }

/-- First write of the last-write-wins scenario. -/
def rS1 : SpreadRecord :=
  { date := 5, term_spread := -2, front_month_apy := 5, back_month_apy := 3,
    front_expiry := 20, back_expiry := 100, underlying_apy := 6, markets_count := 2 }

/-- Second write for the same date with a different `term_spread`. -/
def rS2 : SpreadRecord :=
  { date := 5, term_spread := -4, front_month_apy := 6, back_month_apy := 2,
    front_expiry := 30, back_expiry := 120, underlying_apy := 7, markets_count := 3 }

/-- Fan-out scenario markets: three valid sUSDe maturities. -/
def mC9a : Market :=
  { name := some "sUSDe", expiry := some 864000000, impliedApy := some (5/100) }

/-- Second fan-out scenario market. -/
def mC9b : Market :=
  { name := some "sUSDe", expiry := some 1728000000, impliedApy := some (4/100) }

/-- Third fan-out scenario market. -/
def mC9c : Market :=
  { name := some "sUSDe", expiry := some 2592000000, impliedApy := some (3/100) }

/-- One failing branch and one branch returning 3 valid markets. -/
def c9Branches : List FetchResult :=
  [FetchResult.err "network error", FetchResult.ok [mC9a, mC9b, mC9c]]

/-- Second, spec-side formulation of the field-resolution rule: take the
first source in the precedence list that is present and nonzero, else 0. -/
def truthyChain : List (Option ℚ) → ℚ
  | [] => 0
  | none :: rest => truthyChain rest
  | some q :: rest => if q = 0 then truthyChain rest else q

/-! ## Helper lemmas -/

lemma roundHalfAway_intCast (n : Int) : roundHalfAway (n : ℚ) = n := by
  unfold roundHalfAway
  have hhalf : (Int.floor ((1:ℚ)/2)) = 0 := by
    rw [Int.floor_eq_iff]
    norm_num
  rcases lt_or_le (n : ℚ) 0 with h | h
  · rw [if_pos h, show (-(n:ℚ) + 1/2) = ((-n : Int) : ℚ) + 1/2 by push_cast; ring,
      Int.floor_int_add, hhalf]
    ring
  · rw [if_neg (not_lt.mpr h), show ((n:ℚ) + 1/2) = ((n : Int) : ℚ) + 1/2 by norm_num,
      Int.floor_int_add, hhalf]
    ring

lemma roundTo_intCast (k : Nat) (n : Int) : roundTo k (n : ℚ) = n := by
  unfold roundTo
  rw [show ((n : ℚ) * 10 ^ k) = (((n * 10 ^ k : Int)) : ℚ) by push_cast; ring,
    roundHalfAway_intCast]
  push_cast
  field_simp

lemma daysToExpiry_pos (e now : Int) : 0 < daysToExpiry e now ↔ now < e := by
  unfold daysToExpiry msPerDay
  omega

lemma snapValid_length_le (ms : List Market) (now : Int) :
    (snapValidSorted ms now).length ≤ (snapCandidates ms).length := by
  unfold snapValidSorted
  calc (List.length _) ≤ _ := List.length_filter_le _ _
    _ = ((snapCandidates ms).filter (fun m => m.expiry.isSome)).length :=
        List.length_insertionSort _ _
    _ ≤ _ := List.length_filter_le _ _

lemma orVal_truthyChain (o : Option ℚ) (rest : List (Option ℚ)) :
    truthyChain (o :: rest) = orVal o (truthyChain rest) := by
  cases o <;> simp [truthyChain, orVal]

/-! ## Claim theorems -/

/-- Claim C1: for every candidate set of size ≥ 2 after expiry filtering, the
snapshot job succeeds and the stored `term_spread` equals the back
(latest-expiry) extreme's implied yield minus the front (earliest-expiry)
extreme's implied yield — each yield being the fractional API rate scaled by
100 — rounded to 4 decimal places, with `front_expiry`/`back_expiry` taken
from the respective extremes. -/
theorem c1_term_spread (ms : List Market) (now : Int)
    (h : 2 ≤ (snapValidSorted ms now).length) :
    snapshotOutcome ms now = SnapOutcome.success (mkRecord (snapValidSorted ms now) now) ∧
    (mkRecord (snapValidSorted ms now) now).term_spread =
      roundTo 4 (resolveImpliedApy (snapBack ms now) * 100 -
        resolveImpliedApy (snapFront ms now) * 100) ∧
    (mkRecord (snapValidSorted ms now) now).front_expiry =
      msToDay (expiryMs (snapFront ms now)) ∧
    (mkRecord (snapValidSorted ms now) now).back_expiry =
      msToDay (expiryMs (snapBack ms now)) := by
  have hc : ¬ (snapCandidates ms).length < 2 := by
    have := snapValid_length_le ms now
    omega
  have hv : ¬ (snapValidSorted ms now).length < 2 := by omega
  refine ⟨?_, rfl, rfl, rfl⟩
  unfold snapshotOutcome
  rw [if_neg hc, if_neg hv]

/-- Witness for C1, the claimed scenario: candidates expiring at `T+10d` with
implied APY `0.04` and `T+180d` with implied APY `0.01` produce
`term_spread = -3.0000`, `front_expiry = T+10d`, `back_expiry = T+180d`. -/
theorem c1_term_spread_witness :
    2 ≤ (snapValidSorted [mC1a, mC1b] 0).length ∧
    (snapshotOutcome [mC1a, mC1b] 0 =
      SnapOutcome.success (mkRecord (snapValidSorted [mC1a, mC1b] 0) 0) ∧
     (mkRecord (snapValidSorted [mC1a, mC1b] 0) 0).term_spread =
       roundTo 4 (resolveImpliedApy (snapBack [mC1a, mC1b] 0) * 100 -
         resolveImpliedApy (snapFront [mC1a, mC1b] 0) * 100) ∧
     (mkRecord (snapValidSorted [mC1a, mC1b] 0) 0).front_expiry =
       msToDay (expiryMs (snapFront [mC1a, mC1b] 0)) ∧
     (mkRecord (snapValidSorted [mC1a, mC1b] 0) 0).back_expiry =
       msToDay (expiryMs (snapBack [mC1a, mC1b] 0))) ∧
    (mkRecord (snapValidSorted [mC1a, mC1b] 0) 0).term_spread = -3 ∧
    (mkRecord (snapValidSorted [mC1a, mC1b] 0) 0).front_expiry = 10 ∧
    (mkRecord (snapValidSorted [mC1a, mC1b] 0) 0).back_expiry = 180 := by
  refine ⟨by decide, c1_term_spread [mC1a, mC1b] 0 (by decide), ?_, by decide, by decide⟩
  have h : snapValidSorted [mC1a, mC1b] 0 = [mC1a, mC1b] := rfl
  rw [h]
  show roundTo 4 (resolveImpliedApy mC1b * 100 - resolveImpliedApy mC1a * 100) = -3
  rw [show (resolveImpliedApy mC1b * 100 - resolveImpliedApy mC1a * 100) = ((-3 : Int) : ℚ) by
    norm_num [resolveImpliedApy, orVal, mC1a, mC1b]]
  rw [roundTo_intCast]
  norm_num

/-- Claim C2 counterexample: with one stored row, requesting `days = 0` does
not return an empty sequence — `parseInt(days) || 90` treats `0` as absent
and falls back to the default of 90 rows. -/
theorem c2_counterexample :
    historyData [rHist] (some 0) = [rHist] ∧
    ¬ historyData [rHist] (some 0) = [] := by
  refine ⟨rfl, ?_⟩
  intro h
  simp [show historyData [rHist] (some 0) = [rHist] from rfl] at h

/-- Claim C2 (amended): requesting 1000 days behaves identically to
requesting 365 (the count is clamped to 365); requesting 0 days is treated
like an absent parameter and behaves identically to the default of 90 days
(it does not return an empty sequence, and is not an error). -/
theorem c2_clamping (store : List SpreadRecord) :
    historyData store (some 1000) = historyData store (some 365) ∧
    historyData store (some 0) = historyData store none ∧
    historyData store none = historyData store (some 90) := by
  refine ⟨?_, ?_, ?_⟩ <;> rfl

/-- Claim C7: for every request, the history endpoint returns the retained
snapshots sorted ascending by date, and the returned sequence is exactly the
reverse of the newest-first (descending) storage fetch. -/
theorem c7_chronological (store : List SpreadRecord) (q : Option Int) :
    List.Pairwise dateLe (historyData store q) ∧
    historyData store q = (fetchDesc store q).reverse := by
  refine ⟨?_, rfl⟩
  rw [historyData, List.pairwise_reverse]
  have hs : List.Pairwise dateGe (List.insertionSort dateGe store) :=
    List.sorted_insertionSort dateGe store
  exact (hs.sublist (List.take_sublist _ _))

/-- Claim C3 counterexample: a record named `"sUSDe Something"` contains the
asset symbol as a case-insensitive substring, yet the snapshot job does not
take it as a candidate — its filter requires the lower-cased name to equal
`'susde'` exactly and never consults the underlying-asset symbol. -/
theorem c3_counterexample :
    containsL "susde".data (lowerChars (appDisplayName mC3)) = true ∧
    appMatch mC3 = true ∧
    snapMatch mC3 = false ∧
    snapCandidates [mC3] = [] := by
  refine ⟨by decide, by decide, by decide, rfl⟩

/-- Claim C3 (amended): the dashboard filter qualifies a record exactly when
its resolved display name or its underlying-asset symbol contains `susde`
case-insensitively; the snapshot job instead qualifies a record exactly when
its lower-cased name equals `susde` (the symbol is not consulted), which is
strictly stronger than the dashboard rule. -/
theorem c3_matching (m : Market) :
    (appMatch m = true ↔
      (containsL "susde".data (lowerChars (appDisplayName m)) = true ∨
        containsL "susde".data (lowerChars (appSymbol m)) = true)) ∧
    (snapMatch m = true ↔ lowerChars (m.name.getD "") = "susde".data) ∧
    (!(snapMatch m) || appMatch m) = true := by
  refine ⟨by simp [appMatch], by simp [snapMatch], ?_⟩
  by_cases hs : snapMatch m = true
  · have hx : lowerChars (m.name.getD "") = "susde".data := by
      simpa [snapMatch] using hs
    have ha : appMatch m = true := by
      rcases hm : m.name with _ | s
      · rw [hm] at hx
        exact absurd hx (by decide)
      · rcases eq_or_ne s "" with he | he
        · rw [hm, he] at hx
          exact absurd hx (by decide)
        · have hd : appDisplayName m = s := by
            simp [appDisplayName, strOr, hm, he]
          rw [hm] at hx
          simp only [Option.getD_some] at hx
          rw [appMatch, hd, hx]
          simp only [Bool.or_eq_true]
          exact Or.inl (by decide)
    simp [hs, ha]
  · simp [Bool.of_not_eq_true hs]

/-- Claim C4: a candidate set left with fewer than 2 members never makes the
pipeline raise an error: zero name-matched candidates give the
`insufficientMarkets` outcome, any sub-2 valid set persists nothing and
answers HTTP 200 (informational, not an error), and in the dashboard a
single valid candidate yields a one-point structure with term spread 0. -/
theorem c4_degenerate (ms0 ms1 ms2 : List Market) (now : Int)
    (h0 : snapCandidates ms0 = [])
    (h1 : (snapValidSorted ms1 now).length < 2)
    (h2 : (appValidStructure ms2 now).length = 1) :
    snapshotOutcome ms0 now = SnapOutcome.insufficientMarkets 0 ∧
    persistedSnapshot (snapshotOutcome ms1 now) = none ∧
    snapStatus (snapshotOutcome ms1 now) = 200 ∧
    isSuccess (snapshotOutcome ms1 now) = false ∧
    appProcess ms2 now = some (appValidStructure ms2 now, 0) := by
  refine ⟨?_, ?_, ?_, ?_, ?_⟩
  · unfold snapshotOutcome
    rw [h0]
    simp
  · unfold snapshotOutcome
    split_ifs with a
    · rfl
    · rfl
  · unfold snapshotOutcome
    split_ifs with a
    · rfl
    · rfl
  · unfold snapshotOutcome
    split_ifs with a
    · rfl
    · rfl
  · have hvne : appValidStructure ms2 now ≠ [] := by
      intro he
      rw [he] at h2
      simp at h2
    have hsne : appSorted ms2 ≠ [] := by
      intro he
      have : (appValidStructure ms2 now).length = 0 := by
        unfold appValidStructure appStructurePoints
        rw [he]
        simp
      omega
    unfold appProcess
    rw [if_neg (by simpa [List.isEmpty_iff] using hsne),
      if_neg (by simpa [List.isEmpty_iff] using hvne),
      if_neg (by omega)]

/-- Witness for C4: an empty fetch gives the zero-candidate outcome, and the
single market `mG` gives the one-point dashboard structure with spread 0. -/
theorem c4_degenerate_witness :
    snapCandidates [] = [] ∧
    (snapValidSorted [] 0).length < 2 ∧
    (appValidStructure [mG] 0).length = 1 ∧
    (snapshotOutcome [] 0 = SnapOutcome.insufficientMarkets 0 ∧
     persistedSnapshot (snapshotOutcome [] 0) = none ∧
     snapStatus (snapshotOutcome [] 0) = 200 ∧
     isSuccess (snapshotOutcome [] 0) = false ∧
     appProcess [mG] 0 = some (appValidStructure [mG] 0, 0)) := by
  have h2 : (appValidStructure [mG] 0).length = 1 := by
    have h1 : appStructurePoints [mG] 0 = [toPoint 0 mG] := rfl
    rw [appValidStructure, h1, List.filter_cons]
    have hd : (0 : Int) < (toPoint 0 mG).days := by decide
    have hy : (0 : ℚ) < (toPoint 0 mG).impliedYield := by
      show (0:ℚ) < resolveImpliedApy mG * 100
      norm_num [resolveImpliedApy, orVal, mG]
    simp [hd, hy]
  exact ⟨rfl, by decide, h2, c4_degenerate [] [] [mG] 0 rfl (by decide) h2⟩

/-- Claim C5: the strictly-positive days-to-expiry filter runs before
front/back selection, so the selected front and back extremes are never
expired relative to `asOf`; and whenever the filter leaves fewer than two
candidates the job falls back to its degenerate informational outcome. -/
theorem c5_expiry_filter (ms1 ms2 : List Market) (now : Int) (front back : Market)
    (hf : (snapValidSorted ms1 now).head? = some front)
    (hb : (snapValidSorted ms1 now).getLast? = some back)
    (h2 : (snapValidSorted ms2 now).length < 2) :
    snapFront ms1 now = front ∧
    snapBack ms1 now = back ∧
    0 < daysToExpiry (expiryMs front) now ∧ now < expiryMs front ∧
    0 < daysToExpiry (expiryMs back) now ∧ now < expiryMs back ∧
    isSuccess (snapshotOutcome ms2 now) = false := by
  have hmf : front ∈ snapValidSorted ms1 now :=
    List.mem_of_mem_head? (by simp [hf])
  have hmb : back ∈ snapValidSorted ms1 now :=
    List.mem_of_mem_getLast? (by simp [hb])
  have pf : 0 < daysToExpiry (expiryMs front) now := by
    have := (List.mem_filter.mp hmf).2
    exact of_decide_eq_true this
  have pb : 0 < daysToExpiry (expiryMs back) now := by
    have := (List.mem_filter.mp hmb).2
    exact of_decide_eq_true this
  refine ⟨by simp [snapFront, hf], by simp [snapBack, hb], pf,
    (daysToExpiry_pos _ _).mp pf, pb, (daysToExpiry_pos _ _).mp pb, ?_⟩
  unfold snapshotOutcome
  split_ifs with a
  · rfl
  · rfl

/-- Witness for C5: in the two-market scenario the front/back extremes both
have strictly positive days to expiry, and an empty set falls back to the
informational outcome. -/
theorem c5_expiry_filter_witness :
    (snapValidSorted [mC1a, mC1b] 0).head? = some mC1a ∧
    (snapValidSorted [mC1a, mC1b] 0).getLast? = some mC1b ∧
    (snapValidSorted ([] : List Market) 0).length < 2 ∧
    (snapFront [mC1a, mC1b] 0 = mC1a ∧
     snapBack [mC1a, mC1b] 0 = mC1b ∧
     0 < daysToExpiry (expiryMs mC1a) 0 ∧ 0 < expiryMs mC1a ∧
     0 < daysToExpiry (expiryMs mC1b) 0 ∧ 0 < expiryMs mC1b ∧
     isSuccess (snapshotOutcome [] 0) = false) :=
  ⟨rfl, rfl, by decide, c5_expiry_filter [mC1a, mC1b] [] 0 mC1a mC1b rfl rfl (by decide)⟩

/-- Claim C6 counterexample: when the preferred nested source is present but
equal to 0 (`details.impliedApy = 0`) and the top-level field is `0.05`, the
resolved implied yield is `0.05`, not the nested source's value — so the
nested field is not preferred merely by presence. -/
theorem c6_counterexample :
    mC6.detailsImpliedApy = some 0 ∧
    mC6.impliedApy = some (5/100) ∧
    resolveImpliedApy mC6 = 5/100 ∧
    ¬ ((5 : ℚ)/100 = 0) := by
  refine ⟨rfl, rfl, ?_, by norm_num⟩
  show orVal (some 0) (orVal (some (5/100)) 0) = 5/100
  norm_num [orVal]

/-- Claim C6 (amended): each ambiguous yield field is resolved by taking the
first source in the precedence list — nested details field, then the
top-level field, then (for the dashboard's underlying yield) the aggregated
alias — that is present AND nonzero, defaulting to 0 when no source
qualifies; a present-but-zero source is skipped. Resolution is total and
never fails on a missing field. -/
theorem c6_resolution (m : Market) :
    resolveImpliedApy m = truthyChain [m.detailsImpliedApy, m.impliedApy] ∧
    resolveUnderlyingApyApp m =
      truthyChain [m.detailsUnderlyingApy, m.underlyingApy, m.detailsAggregatedApy] ∧
    resolveUnderlyingApySnap m = truthyChain [m.detailsUnderlyingApy, m.underlyingApy] := by
  refine ⟨?_, ?_, ?_⟩ <;>
    simp only [resolveImpliedApy, resolveUnderlyingApyApp, resolveUnderlyingApySnap,
      orVal_truthyChain, truthyChain]

/-- Claim C8 (store modelled from the spec): the store keeps at most one
record per date — a repeated `put` of the identical snapshot is idempotent
and leaves exactly one record for that date, identical to the input; and two
`put`s for the same date with different values leave the second retrievable,
never the first (full replacement). -/
theorem c8_upsert (store : List SpreadRecord) (r r1 r2 : SpreadRecord)
    (h : r1.date = r2.date) :
    storePut (storePut store r) r = storePut store r ∧
    (storePut (storePut store r) r).filter (fun s => s.date == r.date) = [r] ∧
    getByDate (storePut (storePut store r1) r2) r1.date = some r2 := by
  refine ⟨?_, ?_, ?_⟩
  · unfold storePut
    rw [List.filter_cons]
    simp [List.filter_filter]
  · unfold storePut
    rw [List.filter_cons]
    simp [List.filter_filter]
  · unfold getByDate storePut
    rw [List.filter_cons]
    simp [List.filter_filter, h]

/-- Witness for C8: concrete same-date records with different spreads. -/
theorem c8_upsert_witness :
    rS1.date = rS2.date ∧
    (storePut (storePut [] rS) rS = storePut [] rS ∧
     (storePut (storePut [] rS) rS).filter (fun s => s.date == rS.date) = [rS] ∧
     getByDate (storePut (storePut [] rS1) rS2) rS1.date = some rS2) :=
  ⟨rfl, c8_upsert [] rS rS1 rS2 rfl⟩

/-- Claim C9: a failed fan-out branch contributes zero markets instead of
aborting the pass — the combined market list only depends on the successful
branches — and the scenario of one failing branch plus one branch with three
valid markets still reaches a successful computed snapshot. -/
theorem c9_partial_failure (rs : List FetchResult) :
    combinedMarkets rs = combinedMarkets (rs.filter branchOk) ∧
    combinedMarkets c9Branches = [mC9a, mC9b, mC9c] ∧
    isSuccess (snapshotOutcome (combinedMarkets c9Branches) 0) = true := by
  refine ⟨?_, rfl, rfl⟩
  induction rs with
  | nil => rfl
  | cons head tail ih =>
    cases head with
    | ok l => simp [combinedMarkets, branchMarkets, branchOk, List.filter_cons] at ih ⊢; exact ih
    | err e => simp [combinedMarkets, branchMarkets, branchOk, List.filter_cons] at ih ⊢; exact ih

/-- Claim C10: field resolution decides between sources by truthiness, not
presence — a preferred source that is present but zero is skipped: with
`details.impliedApy = 0` present and a nonzero top-level `impliedApy = q`,
the resolved value is `q`; likewise a zero nested and top-level underlying
yield fall through to a nonzero aggregated alias. -/
theorem c10_truthiness (m m2 : Market) (q q2 : ℚ)
    (h1 : m.detailsImpliedApy = some 0) (h2 : m.impliedApy = some q) (h3 : ¬ q = 0)
    (h4 : m2.detailsUnderlyingApy = some 0) (h5 : m2.underlyingApy = some 0)
    (h6 : m2.detailsAggregatedApy = some q2) (h7 : ¬ q2 = 0) :
    resolveImpliedApy m = q ∧ resolveUnderlyingApyApp m2 = q2 := by
  constructor
  · rw [resolveImpliedApy, h1, h2]
    simp [orVal, h3]
  · rw [resolveUnderlyingApyApp, h4, h5, h6]
    simp [orVal, h7]

/-- Witness for C10: `details.impliedApy = 0` with top-level `0.07` resolves
to `0.07`; zero nested and top-level underlying yields with aggregated alias
`0.03` resolve to `0.03`. -/
theorem c10_truthiness_witness :
    mC10.detailsImpliedApy = some 0 ∧ mC10.impliedApy = some (7/100) ∧
    ¬ ((7 : ℚ)/100 = 0) ∧
    mC10b.detailsUnderlyingApy = some 0 ∧ mC10b.underlyingApy = some 0 ∧
    mC10b.detailsAggregatedApy = some (3/100) ∧ ¬ ((3 : ℚ)/100 = 0) ∧
    (resolveImpliedApy mC10 = 7/100 ∧ resolveUnderlyingApyApp mC10b = 3/100) :=
  ⟨rfl, rfl, by norm_num, rfl, rfl, rfl, by norm_num,
    c10_truthiness mC10 mC10b (7/100) (3/100) rfl rfl (by norm_num) rfl rfl rfl (by norm_num)⟩
